import Mathlib

/-!
Verification development for the FlaskOCR service (src/app.py).

The service is a single Flask endpoint `GET /extract` that fetches an image
from a caller-supplied URL, sends it (with a prompt, and in one configuration
also a fixed reference image) to a generative AI model, normalizes the model
response text (stripping an optional markdown code fence), parses it as JSON
and relays the result, mapping each failure class to an HTTP status.

Shallow embedding choices:
- Python strings are embedded as `List Char` (named `Str`); the Python string
  operations the handler uses (`strip`, `startswith`, `endswith`,
  `replace(pat, "", 1)`, `[:-3]`) are defined below on lists.
- `json.loads` is embedded as an executable recursive-descent JSON parser
  (`jsonLoads`) over the JSON grammar the Python `json` module accepts;
  numbers keep their lexeme.
- The external world (outbound HTTP fetch, PIL image decoding, the Gemini
  call, and the message text of a `JSONDecodeError`) is an explicit
  environment `Env` of oracle functions; the handler is a pure function of
  that environment and the request parameter.
-/

/-- Python strings, embedded as lists of characters. -/
abbrev Str := List Char

/-- Bytes of an HTTP response body. -/
abbrev Bytes := List Nat

/-- Whitespace characters removed by Python `str.strip()` (ASCII range). -/
def isPySpace (c : Char) : Bool :=
  c = ' ' || c = '\t' || c = '\n' || c = '\r' || c = '\x0b' || c = '\x0c'

/-- Python `str.lstrip()`. -/
def stripL (l : Str) : Str := l.dropWhile isPySpace

/-- Python `str.rstrip()`. -/
def stripR (l : Str) : Str := (l.reverse.dropWhile isPySpace).reverse

/-- Python `str.strip()`. -/
def pstrip (l : Str) : Str := stripR (stripL l)

/-- Python `s.replace(pat, "", 1)` for a non-empty pattern: removes the first
occurrence of `pat`, if any. -/
def replaceFirst : Str → Str → Str
  | [], _ => []
  | c :: rest, pat =>
    if pat.isPrefixOf (c :: rest) then (c :: rest).drop pat.length
    else c :: replaceFirst rest pat

/-- Python `s[:-3]`. -/
def pyDropLast3 (l : Str) : Str := l.take (l.length - 3)

/-- The opening code-fence marker checked by the handler. -/
def fenceJson : Str := ("```json").data

/-- The closing code-fence marker checked by the handler. -/
def fenceBare : Str := ("```").data

/-- Response-text normalization performed in `extract_document_fields`
(src/app.py lines 169-175 and 230-236): strip, drop a leading markdown
code-fence marker only when it is exactly the seven characters of
a backtick-backtick-backtick-json fence, drop a trailing three-backtick
marker, strip again. -/
def normalizeResponse (t : Str) : Str :=
  let t1 := pstrip t
  let t2 := if fenceJson.isPrefixOf t1 then replaceFirst t1 fenceJson else t1
  let t3 := if fenceBare.isSuffixOf t2 then pyDropLast3 t2 else t2
  pstrip t3

/-- JSON values as produced by `json.loads`; numbers keep their source
lexeme, objects keep Python dict semantics (first-occurrence order, a
repeated key overwrites the earlier value). -/
inductive Json where
  | null : Json
  | bool (b : Bool) : Json
  | num (lexeme : Str) : Json
  | str (s : Str) : Json
  | arr (xs : List Json) : Json
  | obj (kvs : List (Str × Json)) : Json

/-- JSON grammar whitespace (as in Python's `json` module). -/
def isJsonWs (c : Char) : Bool :=
  c = ' ' || c = '\t' || c = '\n' || c = '\r'

/-- Skip JSON whitespace. -/
def skipWs (l : Str) : Str := l.dropWhile isJsonWs

/-- Look up a key in an object member list. -/
def lookupKey (k : Str) : List (Str × Json) → Option Json
  | [] => none
  | (k0, v0) :: rest => if k0 = k then some v0 else lookupKey k rest

/-- Remove the entry for a key from an object member list. -/
def eraseKey (k : Str) : List (Str × Json) → List (Str × Json)
  | [] => []
  | (k0, v0) :: rest =>
    if k0 = k then rest else (k0, v0) :: eraseKey k rest

/-- Prepend a member to an already-deduplicated member list with Python dict
semantics: a key keeps its first-occurrence position but the value of its
last occurrence. -/
def consDict (k : Str) (v : Json) (d : List (Str × Json)) :
    List (Str × Json) :=
  match lookupKey k d with
  | some v2 => (k, v2) :: eraseKey k d
  | none => (k, v) :: d

/-- Hex digit value, if the character is one. -/
def hexVal (c : Char) : Option Nat :=
  if '0' ≤ c ∧ c ≤ '9' then some (c.toNat - '0'.toNat)
  else if 'a' ≤ c ∧ c ≤ 'f' then some (c.toNat - 'a'.toNat + 10)
  else if 'A' ≤ c ∧ c ≤ 'F' then some (c.toNat - 'A'.toNat + 10)
  else none

/-- Parse the body of a JSON string after the opening quote, handling the
escape sequences of the JSON grammar; returns the decoded characters and the
remaining input after the closing quote. Fuel-bounded (any fuel at least the
input length behaves identically, since every step consumes a character). -/
def parseStringBody : Nat → Str → Option (Str × Str)
  | 0, _ => none
  | _, [] => none
  | fuel + 1, c :: rest =>
    if c = '"' then some ([], rest)
    else if c = '\\' then
      match rest with
      | [] => none
      | e :: rest2 =>
        let simpleEsc : Option Char :=
          if e = '"' then some '"'
          else if e = '\\' then some '\\'
          else if e = '/' then some '/'
          else if e = 'b' then some '\x08'
          else if e = 'f' then some '\x0c'
          else if e = 'n' then some '\n'
          else if e = 'r' then some '\r'
          else if e = 't' then some '\t'
          else none
        match simpleEsc with
        | some d =>
          match parseStringBody fuel rest2 with
          | some (s, rem) => some (d :: s, rem)
          | none => none
        | none =>
          if e = 'u' then
            match rest2 with
            | h1 :: h2 :: h3 :: h4 :: rest3 =>
              match hexVal h1, hexVal h2, hexVal h3, hexVal h4 with
              | some a, some b, some c3, some d =>
                let n := ((a * 16 + b) * 16 + c3) * 16 + d
                match parseStringBody fuel rest3 with
                | some (s, rem) => some (Char.ofNat n :: s, rem)
                | none => none
              | _, _, _, _ => none
            | _ => none
          else none
    else if c.toNat < 32 then none
    else
      match parseStringBody fuel rest with
      | some (s, rem) => some (c :: s, rem)
      | none => none

/-- Is the character an ASCII decimal digit. -/
def isDig (c : Char) : Bool := '0' ≤ c && c ≤ '9'

/-- Take a maximal run of decimal digits. -/
def takeDigits (l : Str) : Str × Str :=
  (l.takeWhile isDig, l.dropWhile isDig)

/-- Parse the integer part of a JSON number (after an optional sign):
`0` or a nonzero digit followed by digits. Returns the consumed lexeme. -/
def parseIntPart (l : Str) : Option (Str × Str) :=
  match l with
  | [] => none
  | c :: rest =>
    if c = '0' then some ([c], rest)
    else if isDig c then
      let (ds, rem) := takeDigits rest
      some (c :: ds, rem)
    else none

/-- Parse an optional fraction part `.digits`; returns consumed lexeme. -/
def parseFracPart (l : Str) : Option (Str × Str) :=
  match l with
  | '.' :: rest =>
    match takeDigits rest with
    | ([], _) => none
    | (ds, rem) => some ('.' :: ds, rem)
  | _ => some ([], l)

/-- Parse an optional exponent part; returns consumed lexeme. -/
def parseExpPart (l : Str) : Option (Str × Str) :=
  match l with
  | c :: rest =>
    if c = 'e' ∨ c = 'E' then
      match rest with
      | s :: rest2 =>
        if s = '+' ∨ s = '-' then
          match takeDigits rest2 with
          | ([], _) => none
          | (ds, rem) => some (c :: s :: ds, rem)
        else
          match takeDigits rest with
          | ([], _) => none
          | (ds, rem) => some (c :: ds, rem)
      | [] => none
    else some ([], c :: rest)
  | [] => some ([], [])

/-- Parse a JSON number starting at the current position; returns its lexeme
and the rest. -/
def parseNumber (l : Str) : Option (Str × Str) :=
  let (sgn, l1) : Str × Str :=
    match l with
    | '-' :: rest => (['-'], rest)
    | _ => ([], l)
  match parseIntPart l1 with
  | none => none
  | some (ip, l2) =>
    match parseFracPart l2 with
    | none => none
    | some (fp, l3) =>
      match parseExpPart l3 with
      | none => none
      | some (ep, l4) => some (sgn ++ ip ++ fp ++ ep, l4)

/-- Expect a literal word at the head of the input. -/
def expectWord (w : Str) (l : Str) : Option Str :=
  if w.isPrefixOf l then some (l.drop w.length) else none

mutual

/-- Parse a JSON value at the current position (fuel-bounded recursive
descent over the grammar accepted by Python `json.loads`). -/
def parseValue (fuel : Nat) (l : Str) : Option (Json × Str) :=
  match fuel with
  | 0 => none
  | fuel + 1 =>
    match l with
    | [] => none
    | c :: rest =>
      if c = 't' then
        match expectWord ("rue").data rest with
        | some rem => some (Json.bool true, rem)
        | none => none
      else if c = 'f' then
        match expectWord ("alse").data rest with
        | some rem => some (Json.bool false, rem)
        | none => none
      else if c = 'n' then
        match expectWord ("ull").data rest with
        | some rem => some (Json.null, rem)
        | none => none
      else if c = '"' then
        match parseStringBody (rest.length + 1) rest with
        | some (s, rem) => some (Json.str s, rem)
        | none => none
      else if c = '[' then
        parseArrayItems fuel (skipWs rest) true
      else if c = '\x7b' then
        parseObjectItems fuel (skipWs rest) true
      else
        match parseNumber (c :: rest) with
        | some (lex, rem) => some (Json.num lex, rem)
        | none => none

/-- Parse the items of a JSON array after `[` (whitespace already skipped);
`first` is true when no item has been consumed yet. -/
def parseArrayItems (fuel : Nat) (l : Str) (first : Bool) :
    Option (Json × Str) :=
  match fuel with
  | 0 => none
  | fuel + 1 =>
    match l with
    | ']' :: rem => if first then some (Json.arr [], rem) else none
    | _ =>
      match parseValue fuel l with
      | none => none
      | some (v, rem) =>
        match skipWs rem with
        | ']' :: rem2 => some (Json.arr [v], rem2)
        | ',' :: rem2 =>
          match parseArrayItems fuel (skipWs rem2) false with
          | some (Json.arr vs, rem3) => some (Json.arr (v :: vs), rem3)
          | _ => none
        | _ => none

/-- Parse the members of a JSON object after the opening brace (whitespace
already skipped); `first` is true when no member has been consumed yet. -/
def parseObjectItems (fuel : Nat) (l : Str) (first : Bool) :
    Option (Json × Str) :=
  match fuel with
  | 0 => none
  | fuel + 1 =>
    match l with
    | '\x7d' :: rem => if first then some (Json.obj [], rem) else none
    | '"' :: rest =>
      match parseStringBody (rest.length + 1) rest with
      | none => none
      | some (k, rem) =>
        match skipWs rem with
        | ':' :: rem2 =>
          match parseValue fuel (skipWs rem2) with
          | none => none
          | some (v, rem3) =>
            match skipWs rem3 with
            | '\x7d' :: rem4 => some (Json.obj [(k, v)], rem4)
            | ',' :: rem4 =>
              match parseObjectItems fuel (skipWs rem4) false with
              | some (Json.obj kvs, rem5) =>
                some (Json.obj (consDict k v kvs), rem5)
              | _ => none
            | _ => none
        | _ => none
    | _ => none

end

/-- Python `json.loads`: parse a complete JSON document, requiring only
whitespace after the value; object member lists get Python dict semantics.
Returns `none` where `json.loads` raises `JSONDecodeError`. -/
def jsonLoads (t : Str) : Option Json :=
  let s := skipWs t
  match parseValue (s.length + 1) s with
  | some (j, rest) => if (skipWs rest).isEmpty then some j else none
  | none => none

/-- A decoded PIL image (the handler never inspects pixels, only passes the
object on). -/
structure ImageData where
  raw : Bytes
deriving DecidableEq

/-- Outcome of `requests.get(url, timeout=10)`: a raised
`requests.exceptions.RequestException` carrying its message, or an HTTP
response with status code, reason phrase and body bytes. -/
inductive FetchResult where
  | exc (msg : Str) : FetchResult
  | resp (status : Nat) (reason : Str) (content : Bytes) : FetchResult

/-- One part of a `model.generate_content` argument list: a prompt string or
an image. -/
inductive GenPart where
  | txt (s : Str) : GenPart
  | img (i : ImageData) : GenPart

/-- Outcome of `model.generate_content(...)` followed by reading `.text`:
the response text, or a raised exception with its type name and message. -/
inductive AIResult where
  | ok (text : Str) : AIResult
  | err (typeName : Str) (msg : Str) : AIResult

/-- The external world the handler interacts with: the `OCR_APPROACH`
environment variable, outbound HTTP (`requests.get`), image decoding
(`PIL.Image.open` on the fetched bytes, `none`-free: an `Except` carrying
`str(e)` on failure), the Gemini call, and the `str(e)` text of a
`json.JSONDecodeError` for a given failing input text. -/
structure Env where
  ocrApproachVar : Option Str
  fetch : Str → FetchResult
  decode : Bytes → Except Str ImageData
  genContent : List GenPart → AIResult
  jsonDecodeErrText : Str → Str

/-- Module-level `OCR_APPROACH = os.environ.get('OCR_APPROACH', 'direct')`
(src/app.py line 51). -/
def OCR_APPROACH (e : Env) : Str := e.ocrApproachVar.getD ("direct").data

/-- The fixed reference image URL (src/app.py line 56). -/
def REFERENCE_IMAGE_URL : Str :=
  ("https://xpertlink.agency/wp-content/uploads/2025/08/רישוי_שנתי.jpg").data

/-- Body of an HTTP response produced by the handler: a plain string
(`Response(...)`) or a JSON document (`jsonify(...)`). -/
inductive Body where
  | text (s : Str) : Body
  | json (j : Json) : Body

/-- An HTTP response as produced by the Flask handler. -/
structure HttpResponse where
  status : Nat
  body : Body
  mimetype : Str

/-- Message text of the `requests.HTTPError` raised by
`Response.raise_for_status` for a 4xx or 5xx status. -/
def http_error_text (st : Nat) (reason url : Str) : Str :=
  if st < 500 then
    (toString st).data ++ (" Client Error: ").data ++ reason ++
      (" for url: ").data ++ url
  else
    (toString st).data ++ (" Server Error: ").data ++ reason ++
      (" for url: ").data ++ url

/-- `Response.raise_for_status`: returns the `HTTPError` message for a 4xx
or 5xx status code, nothing otherwise. -/
def raise_for_status (st : Nat) (reason url : Str) : Option Str :=
  if 400 ≤ st ∧ st < 600 then some (http_error_text st reason url) else none

/-- Failure classes of the target-image try-block (src/app.py lines
117-127): a `requests.exceptions.RequestException` (network error or
`raise_for_status`), answered with HTTP 400, or any other exception (image
decoding), answered with HTTP 500. -/
inductive FetchImageError where
  | reqExc (msg : Str) : FetchImageError
  | procExc (msg : Str) : FetchImageError

/-- Fetch and decode the target image (src/app.py lines 118-122):
`requests.get`, `raise_for_status`, `Image.open(BytesIO(content))`. -/
def fetchImage (e : Env) (url : Str) : Except FetchImageError ImageData :=
  match e.fetch url with
  | FetchResult.exc m => Except.error (FetchImageError.reqExc m)
  | FetchResult.resp st reason content =>
    match raise_for_status st reason url with
    | some m => Except.error (FetchImageError.reqExc m)
    | none =>
      match e.decode content with
      | Except.error m => Except.error (FetchImageError.procExc m)
      | Except.ok i => Except.ok i

/-- Fetch and decode the fixed reference image (src/app.py lines 132-138);
every exception in this try-block is caught by a single
`except Exception` handler, so all failures carry only `str(e)`. -/
def fetchReferenceImage (e : Env) : Except Str ImageData :=
  match e.fetch REFERENCE_IMAGE_URL with
  | FetchResult.exc m => Except.error m
  | FetchResult.resp st reason content =>
    match raise_for_status st reason REFERENCE_IMAGE_URL with
    | some m => Except.error m
    | none =>
      match e.decode content with
      | Except.error m => Except.error m
      | Except.ok i => Except.ok i

/-- The missing-parameter error body (src/app.py line 115). -/
def MISSING_PARAM_MSG : Str :=
  ("Error: Please provide an \x27image_url\x27 parameter.").data

/-- The reference-based prompt (src/app.py lines 145-159). -/
def PROMPT_REFERENCE : Str :=
  ("\nYou are an expert document analysis assistant. Your task is to first learn the spatial location of fields from a reference document using the provided text and example values. Then, you must find the data at those *exact same spatial locations* in a new, second document.\n\nHere are your instructions for learning from the reference document: From the reference image, learn the locations of the following fields: \x27דגם\x27 is \x27GD9EL5R\x27 and \x27רמת גימור\x27 is \x27GX\x27.\n\nNow, using the locations you have just learned, analyze the new document and extract the corresponding values.\n\nYour output must be a valid JSON object with the following structure:\n\x7b\n    \"דגם\": \"[extracted model value]\",\n    \"רמת גימור\": \"[extracted trim level value]\"\n\x7d\n\nDo not include any other text or formatting outside of this JSON structure.\n").data

/-- The direct prompt (src/app.py lines 206-220). -/
def PROMPT_DIRECT : Str :=
  ("\nYou are an expert document analysis assistant for vehicle registration documents in Hebrew. \n\nAnalyze the provided image of a vehicle registration document and extract the following fields:\n1. \x27דגם\x27 (Model) - This field appears on the document and contains the vehicle model code.\n2. \x27רמת גימור\x27 (Trim Level) - This field appears on the document and contains the trim level code.\n\nYour output must be a valid JSON object with the following structure:\n\x7b\n    \"דגם\": \"[extracted model value]\",\n    \"רמת גימור\": \"[extracted trim level value]\"\n\x7d\n\nDo not include any other text or formatting outside of this JSON structure.\n").data

/-- The first fixed extraction field (vehicle model code). -/
def FIELD_MODEL : Str := ("דגם").data

/-- The second fixed extraction field (trim level code). -/
def FIELD_TRIM : Str := ("רמת גימור").data

/-- Send parts to Gemini and turn the outcome into an HTTP response: the
shared try/except block around `model.generate_content`, response
normalization, `json.loads` and `jsonify` that appears verbatim in both
branches of the handler (src/app.py lines 161-199 and 222-260). -/
def aiRespond (e : Env) (parts : List GenPart) : HttpResponse :=
  match e.genContent parts with
  | AIResult.err ty m =>
    HttpResponse.mk 500
      (Body.text (("Error communicating with the AI model:\nError Type: ").data
        ++ ty ++ ("\nError Message: ").data ++ m))
      ("text/plain; charset=utf-8").data
  | AIResult.ok t =>
    match jsonLoads (normalizeResponse t) with
    | some j => HttpResponse.mk 200 (Body.json j) ("application/json").data
    | none =>
      HttpResponse.mk 500
        (Body.text (("Error parsing JSON response: ").data
          ++ e.jsonDecodeErrText (normalizeResponse t)
          ++ ("\nResponse text: ").data ++ t))
        ("text/plain; charset=utf-8").data

/-- The `GET /extract` handler `extract_document_fields`
(src/app.py lines 106-260), as a pure function of the environment and the
`image_url` query parameter (`none` when absent). -/
def extract_document_fields (e : Env) (image_url : Option Str) :
    HttpResponse :=
  match image_url with
  | none => HttpResponse.mk 400 (Body.text MISSING_PARAM_MSG) ("text/plain").data
  | some u =>
    if u.isEmpty then
      HttpResponse.mk 400 (Body.text MISSING_PARAM_MSG) ("text/plain").data
    else
      match fetchImage e u with
      | Except.error (FetchImageError.reqExc m) =>
        HttpResponse.mk 400
          (Body.text (("Error fetching image from URL: ").data ++ m))
          ("text/plain").data
      | Except.error (FetchImageError.procExc m) =>
        HttpResponse.mk 500
          (Body.text (("Error processing image: ").data ++ m))
          ("text/plain").data
      | Except.ok newImage =>
        if OCR_APPROACH e = ("reference_based").data then
          match fetchReferenceImage e with
          | Except.error m =>
            HttpResponse.mk 500
              (Body.text (("Error fetching reference image: ").data ++ m))
              ("text/plain").data
          | Except.ok refImage =>
            aiRespond e [GenPart.txt PROMPT_REFERENCE, GenPart.img refImage,
              GenPart.img newImage]
        else
          aiRespond e [GenPart.txt PROMPT_DIRECT, GenPart.img newImage]

/-- Replace only the AI-call oracle of an environment. -/
def withGen (e : Env) (g : List GenPart → AIResult) : Env :=
  Env.mk e.ocrApproachVar e.fetch e.decode g e.jsonDecodeErrText

/-- Replace only the `OCR_APPROACH` variable of an environment. -/
def withApproach (e : Env) (v : Option Str) : Env :=
  Env.mk v e.fetch e.decode e.genContent e.jsonDecodeErrText

/-- Top-level keys of a JSON document, when it is an object. -/
def jsonTopKeys : Json → Option (List Str)
  | Json.obj kvs => some (kvs.map Prod.fst)
  | _ => none

/-- The backtick character. -/
def btChar : Char := Char.ofNat 96

/-- Decomposition of the opening fence marker. -/
theorem fenceJson_eq :
    fenceJson = btChar :: btChar :: btChar :: 'j' :: 's' :: 'o' :: 'n' :: [] :=
  rfl

/-- Decomposition of the closing fence marker. -/
theorem fenceBare_eq : fenceBare = [btChar, btChar, btChar] := rfl

/-- A backtick is not Python whitespace. -/
theorem btChar_not_space : isPySpace btChar = false := rfl

/-- The right strip is Mathlib's `rdropWhile`. -/
theorem stripR_eq (l : Str) : stripR l = l.rdropWhile isPySpace := rfl

/-- Left-stripping drops an all-whitespace prefix. -/
theorem stripL_append_of_space {pre : Str} (l : Str)
    (h : ∀ c ∈ pre, isPySpace c = true) : stripL (pre ++ l) = stripL l := by
  simp [stripL, List.dropWhile_append_of_pos h]

/-- Left-stripping keeps a list whose head is not whitespace. -/
theorem stripL_cons_of_nonspace {c : Char} (l : Str)
    (h : isPySpace c = false) : stripL (c :: l) = c :: l := by
  simp [stripL, List.dropWhile_cons, h]

/-- Right-stripping drops an all-whitespace suffix. -/
theorem stripR_append_of_space {post : Str} (l : Str)
    (h : ∀ c ∈ post, isPySpace c = true) : stripR (l ++ post) = stripR l := by
  unfold stripR
  rw [List.reverse_append, List.dropWhile_append_of_pos]
  intro a ha
  exact h a (List.mem_reverse.mp ha)

/-- Right-stripping keeps a list whose last element is not whitespace. -/
theorem stripR_concat_of_nonspace {c : Char} (l : Str)
    (h : isPySpace c = false) : stripR (l ++ [c]) = l ++ [c] := by
  rw [stripR_eq]
  exact List.rdropWhile_concat_neg isPySpace l c (by simp [h])

/-- Stripping drops an all-whitespace prefix. -/
theorem pstrip_append_left_of_space {pre : Str} (l : Str)
    (h : ∀ c ∈ pre, isPySpace c = true) : pstrip (pre ++ l) = pstrip l := by
  simp [pstrip, stripL_append_of_space l h]

/-- Stripping drops an all-whitespace suffix. -/
theorem pstrip_append_right_of_space {post : Str} (l : Str)
    (h : ∀ c ∈ post, isPySpace c = true) : pstrip (l ++ post) = pstrip l := by
  unfold pstrip stripL
  rw [List.dropWhile_append]
  by_cases he : (l.dropWhile isPySpace).isEmpty
  · rw [if_pos he]
    have h1 : post.dropWhile isPySpace = [] := by
      have h0 : (post ++ ([] : Str)).dropWhile isPySpace
          = ([] : Str).dropWhile isPySpace := List.dropWhile_append_of_pos h
      simpa using h0
    have h2 : l.dropWhile isPySpace = [] := by
      cases hl : l.dropWhile isPySpace with
      | nil => rfl
      | cons a as => rw [hl] at he; simp [List.isEmpty] at he
    rw [h1, h2]
  · rw [if_neg he]
    exact stripR_append_of_space _ h

/-- If a list is already left-stripped, so is its right strip. -/
theorem stripL_stripR_of_stripL {m : Str} (h : stripL m = m) :
    stripL (stripR m) = stripR m := by
  unfold stripL at h ⊢
  rw [List.dropWhile_eq_self_iff] at h ⊢
  intro hl
  have hpre : stripR m <+: m := by
    rw [stripR_eq]
    exact List.rdropWhile_prefix isPySpace m
  have hlen : 0 < m.length := lt_of_lt_of_le hl hpre.length_le
  have hget : (stripR m).get ⟨0, hl⟩ = m.get ⟨0, hlen⟩ := by
    simpa using hpre.getElem hl
  rw [hget]
  exact h hlen

/-- Python `strip` is idempotent. -/
theorem pstrip_idem (l : Str) : pstrip (pstrip l) = pstrip l := by
  unfold pstrip
  have h1 : stripL (stripL l) = stripL l := by
    unfold stripL
    exact List.dropWhile_idempotent _ _
  have h2 : stripL (stripR (stripL l)) = stripR (stripL l) :=
    stripL_stripR_of_stripL h1
  rw [h2, stripR_eq, stripR_eq, List.rdropWhile_idempotent]

/-- Removing the first occurrence of a non-empty pattern that stands at the
head of the list leaves exactly the tail after the pattern. -/
theorem replaceFirst_append (p r : Str) (hp : p ≠ []) :
    replaceFirst (p ++ r) p = r := by
  cases p with
  | nil => exact absurd rfl hp
  | cons c p2 =>
    rw [List.cons_append]
    unfold replaceFirst
    rw [if_pos]
    · rw [← List.cons_append, List.drop_left]
    · rw [← List.cons_append]
      simp only [List.isPrefixOf_iff_prefix]
      exact List.prefix_append _ _

/-- Dropping the last three characters of a list ending in the closing
fence marker removes exactly that marker. -/
theorem pyDropLast3_append_bt3 (x : Str) : pyDropLast3 (x ++ fenceBare) = x := by
  unfold pyDropLast3
  rw [fenceBare_eq]
  have hl : (x ++ [btChar, btChar, btChar]).length - 3 = x.length := by simp
  rw [hl]
  exact List.take_left' rfl

/-- Normalization of a response wrapped in a json-tagged markdown code fence
(with arbitrary whitespace around the payload and around the fences) strips
the wrapping completely, leaving the stripped payload. -/
theorem normalizeResponse_json_fenced (s pre post w1 w2 : Str)
    (hpre : ∀ c ∈ pre, isPySpace c = true)
    (hpost : ∀ c ∈ post, isPySpace c = true)
    (hw1 : ∀ c ∈ w1, isPySpace c = true)
    (hw2 : ∀ c ∈ w2, isPySpace c = true) :
    normalizeResponse (pre ++ fenceJson ++ w1 ++ s ++ w2 ++ fenceBare ++ post)
      = pstrip s := by
  have hcore : pstrip (pre ++ fenceJson ++ w1 ++ s ++ w2 ++ fenceBare ++ post)
      = fenceJson ++ w1 ++ s ++ w2 ++ fenceBare := by
    have e1 : pre ++ fenceJson ++ w1 ++ s ++ w2 ++ fenceBare ++ post
        = pre ++ ((fenceJson ++ w1 ++ s ++ w2 ++ fenceBare) ++ post) := by
      simp [List.append_assoc]
    rw [e1, pstrip_append_left_of_space _ hpre,
      pstrip_append_right_of_space _ hpost]
    have e2 : fenceJson ++ w1 ++ s ++ w2 ++ fenceBare
        = btChar :: (([btChar, btChar, 'j', 's', 'o', 'n'] : Str)
            ++ w1 ++ s ++ w2 ++ fenceBare) := by
      rw [fenceJson_eq]
      simp
    unfold pstrip
    rw [e2, stripL_cons_of_nonspace _ btChar_not_space, ← e2]
    have e3 : fenceJson ++ w1 ++ s ++ w2 ++ fenceBare
        = (fenceJson ++ w1 ++ s ++ w2 ++ [btChar, btChar]) ++ [btChar] := by
      rw [fenceBare_eq]
      simp
    rw [e3]
    exact stripR_concat_of_nonspace _ btChar_not_space
  have hpref : fenceJson.isPrefixOf
      (fenceJson ++ w1 ++ s ++ w2 ++ fenceBare) = true := by
    simp only [List.isPrefixOf_iff_prefix, List.append_assoc]
    exact List.prefix_append _ _
  have hsuf : fenceBare.isSuffixOf (w1 ++ s ++ w2 ++ fenceBare) = true := by
    simp only [List.isSuffixOf_iff_suffix]
    exact ⟨w1 ++ s ++ w2, by simp⟩
  have e4 : fenceJson ++ w1 ++ s ++ w2 ++ fenceBare
      = fenceJson ++ (w1 ++ s ++ w2 ++ fenceBare) := by
    simp [List.append_assoc]
  have hfj : fenceJson ≠ [] := by
    rw [fenceJson_eq]
    simp
  simp only [normalizeResponse]
  rw [hcore, if_pos hpref, e4, replaceFirst_append _ _ hfj, if_pos hsuf,
    pyDropLast3_append_bt3]
  have e5 : w1 ++ s ++ w2 = w1 ++ (s ++ w2) := by simp
  rw [e5, pstrip_append_left_of_space _ hw1, pstrip_append_right_of_space _ hw2]

/-- Normalization of a response whose stripped form neither starts with the
opening fence marker nor ends with three backticks is just Python strip. -/
theorem normalizeResponse_of_plain (s : Str)
    (hnf : fenceJson.isPrefixOf (pstrip s) = false)
    (hnb : fenceBare.isSuffixOf (pstrip s) = false) :
    normalizeResponse s = pstrip s := by
  simp only [normalizeResponse]
  rw [hnf]
  simp only [Bool.false_eq_true, if_false]
  rw [hnb]
  simp only [Bool.false_eq_true, if_false]
  exact pstrip_idem s

/-- Changing only the `OCR_APPROACH` variable leaves the target-image fetch
unchanged. -/
theorem fetchImage_withApproach (e : Env) (v : Option Str) (u : Str) :
    fetchImage (withApproach e v) u = fetchImage e u := rfl

/-- Changing only the `OCR_APPROACH` variable leaves the AI step unchanged. -/
theorem aiRespond_withApproach (e : Env) (v : Option Str)
    (parts : List GenPart) : aiRespond (withApproach e v) parts =
      aiRespond e parts := rfl

/-- Changing only the AI oracle leaves the target-image fetch unchanged. -/
theorem fetchImage_withGen (e : Env) (g : List GenPart → AIResult) (u : Str) :
    fetchImage (withGen e g) u = fetchImage e u := rfl

/-- Changing only the AI oracle leaves the reference fetch unchanged. -/
theorem fetchReferenceImage_withGen (e : Env)
    (g : List GenPart → AIResult) :
    fetchReferenceImage (withGen e g) = fetchReferenceImage e := rfl

/-- Changing only the AI oracle leaves `OCR_APPROACH` unchanged. -/
theorem OCR_APPROACH_withGen (e : Env) (g : List GenPart → AIResult) :
    OCR_APPROACH (withGen e g) = OCR_APPROACH e := rfl

/-- C5: a GET request to /extract without an `image_url` parameter is
answered with HTTP 400 and the fixed plain-text message, for every
environment whatsoever — in particular the response does not depend on the
fetch or AI oracles, so no outbound fetch and no AI call can influence
it. -/
theorem missing_image_url_gives_400 (e : Env) :
    extract_document_fields e none =
      HttpResponse.mk 400 (Body.text MISSING_PARAM_MSG) (("text/plain").data) :=
  rfl

/-- C9: an `image_url` parameter equal to the empty string is handled
exactly like an absent parameter: HTTP 400 with the fixed message, for every
environment (hence without consulting the fetch oracle). -/
theorem empty_image_url_gives_400 (e : Env) :
    extract_document_fields e (some []) = extract_document_fields e none
    ∧ (extract_document_fields e (some [])).status = 400 :=
  ⟨rfl, rfl⟩

/-- C10: with the `OCR_APPROACH` variable unset the module-level constant is
the string direct, and under every value of the variable other than
reference_based the handler behaves exactly as it does with the variable set
to direct (the direct extraction variant). -/
theorem ocr_approach_default_direct (e : Env) :
    (e.ocrApproachVar = none → OCR_APPROACH e = ("direct").data) ∧
    (OCR_APPROACH e ≠ ("reference_based").data →
      ∀ args : Option Str, extract_document_fields e args =
        extract_document_fields (withApproach e (some (("direct").data))) args) := by
  constructor
  · intro h
    simp [OCR_APPROACH, h]
  · intro h args
    cases args with
    | none => rfl
    | some u =>
      by_cases hu : u.isEmpty = true
      · simp [extract_document_fields, hu]
      · have hd : OCR_APPROACH (withApproach e (some (("direct").data)))
            = ("direct").data := rfl
        cases hfetch : fetchImage e u with
        | error err =>
          cases err with
          | reqExc m =>
            simp [extract_document_fields, hu, hfetch, fetchImage_withApproach]
          | procExc m =>
            simp [extract_document_fields, hu, hfetch, fetchImage_withApproach]
        | ok img =>
          simp [extract_document_fields, hu, hfetch, fetchImage_withApproach,
            h, hd, aiRespond_withApproach]

/-- A small valid JSON text used as a concrete AI response. -/
def sampleJsonText : Str := ("\x7b\"a\": 1\x7d").data

/-- The value `json.loads` yields for `sampleJsonText`. -/
def sampleJson : Json := Json.obj [(['a'], Json.num ['1'])]

/-- The sample response wrapped in a json-tagged markdown code fence. -/
def sampleWrapped : Str :=
  [] ++ fenceJson ++ ['\n'] ++ sampleJsonText ++ ['\n'] ++ fenceBare ++ []

/-- A concrete target-image URL for test environments. -/
def sampleUrl : Str := ("http://example.com/doc.jpg").data

/-- A concrete environment in direct mode: every fetch succeeds with status
200, every byte string decodes, and the AI always answers `t`. -/
def directEnv (t : Str) : Env :=
  Env.mk none (fun _ => FetchResult.resp 200 (("OK").data) [])
    (fun b => Except.ok (ImageData.mk b)) (fun _ => AIResult.ok t)
    (fun _ => ("Expecting value: line 1 column 1 (char 0)").data)

/-- C2 counterexample: a valid JSON document wrapped in a markdown code
fence WITHOUT the json language tag does not survive normalization — the
leading fence is not stripped (only a json-tagged fence is), the trailing
one is, and the result no longer parses, while the unwrapped text parses
fine. This refutes the claim for general markdown code fences. -/
theorem plain_fence_wrapping_breaks_parsing :
    jsonLoads (normalizeResponse (("```\n\x7b\"a\": 1\x7d\n```").data)) = none
    ∧ jsonLoads (normalizeResponse (("\x7b\"a\": 1\x7d").data))
        = some (Json.obj [(['a'], Json.num ['1'])]) :=
  And.intro rfl rfl

/-- C2 (amended to json-tagged fences): for every AI response text that is a
valid JSON document wrapped in a json-tagged markdown code fence, with any
whitespace around the fences and the payload, normalization strips the
wrapping and the text parses to the same JSON value as the unwrapped text;
a direct-mode handler returns that value with HTTP 200 and returns exactly
what it would have returned had the AI answered the unwrapped text. -/
theorem json_fenced_response_parses_same
    (s pre post w1 w2 : Str) (j : Json) (e : Env) (u : Str) (img : ImageData)
    (hpre : ∀ c ∈ pre, isPySpace c = true)
    (hpost : ∀ c ∈ post, isPySpace c = true)
    (hw1 : ∀ c ∈ w1, isPySpace c = true)
    (hw2 : ∀ c ∈ w2, isPySpace c = true)
    (hparse : jsonLoads (pstrip s) = some j)
    (hnf : fenceJson.isPrefixOf (pstrip s) = false)
    (hnb : fenceBare.isSuffixOf (pstrip s) = false)
    (hu : u.isEmpty = false)
    (hmode : OCR_APPROACH e ≠ ("reference_based").data)
    (hfi : fetchImage e u = Except.ok img)
    (hgen : e.genContent [GenPart.txt PROMPT_DIRECT, GenPart.img img]
      = AIResult.ok (pre ++ fenceJson ++ w1 ++ s ++ w2 ++ fenceBare ++ post)) :
    jsonLoads (normalizeResponse
      (pre ++ fenceJson ++ w1 ++ s ++ w2 ++ fenceBare ++ post)) = some j
    ∧ jsonLoads (normalizeResponse s) = some j
    ∧ extract_document_fields e (some u)
        = HttpResponse.mk 200 (Body.json j) (("application/json").data)
    ∧ ∀ g : List GenPart → AIResult,
        g [GenPart.txt PROMPT_DIRECT, GenPart.img img] = AIResult.ok s →
        extract_document_fields (withGen e g) (some u)
          = extract_document_fields e (some u) := by
  have hwj : jsonLoads (normalizeResponse
      (pre ++ fenceJson ++ w1 ++ s ++ w2 ++ fenceBare ++ post)) = some j := by
    rw [normalizeResponse_json_fenced s pre post w1 w2 hpre hpost hw1 hw2]
    exact hparse
  have huj : jsonLoads (normalizeResponse s) = some j := by
    rw [normalizeResponse_of_plain s hnf hnb]
    exact hparse
  have hresp : extract_document_fields e (some u)
      = HttpResponse.mk 200 (Body.json j) (("application/json").data) := by
    have hwj2 := hwj
    simp only [List.append_assoc] at hwj2
    simp [extract_document_fields, hu, hfi, hmode, aiRespond, hgen, hwj2]
  refine ⟨hwj, huj, hresp, ?_⟩
  intro g hg
  have hresp2 : extract_document_fields (withGen e g) (some u)
      = HttpResponse.mk 200 (Body.json j) (("application/json").data) := by
    have hmode2 : OCR_APPROACH (withGen e g) ≠ ("reference_based").data := by
      rw [OCR_APPROACH_withGen]
      exact hmode
    have hfi2 : fetchImage (withGen e g) u = Except.ok img := by
      rw [fetchImage_withGen]
      exact hfi
    have hgen2 : (withGen e g).genContent
        [GenPart.txt PROMPT_DIRECT, GenPart.img img] = AIResult.ok s := hg
    simp [extract_document_fields, hu, hfi2, hmode2, aiRespond, hgen2, huj]
  rw [hresp2, hresp]

/-- C2 witness: the amended theorem applied to the concrete sample response
and environment. -/
theorem json_fenced_response_parses_same_witness :
    extract_document_fields (directEnv sampleWrapped) (some sampleUrl)
      = HttpResponse.mk 200 (Body.json sampleJson) (("application/json").data)
    ∧ extract_document_fields
        (withGen (directEnv sampleWrapped) (fun _ => AIResult.ok sampleJsonText))
        (some sampleUrl)
      = extract_document_fields (directEnv sampleWrapped) (some sampleUrl) :=
  And.intro
    (json_fenced_response_parses_same sampleJsonText [] [] ['\n'] ['\n']
      sampleJson (directEnv sampleWrapped) sampleUrl (ImageData.mk [])
      (by simp) (by simp) (by decide) (by decide) rfl rfl rfl rfl (by decide)
      rfl rfl).2.2.1
    ((json_fenced_response_parses_same sampleJsonText [] [] ['\n'] ['\n']
      sampleJson (directEnv sampleWrapped) sampleUrl (ImageData.mk [])
      (by simp) (by simp) (by decide) (by decide) rfl rfl rfl rfl (by decide)
      rfl rfl).2.2.2 (fun _ => AIResult.ok sampleJsonText) rfl)

/-- A valid JSON AI response carrying exactly the two fixed fields. -/
def sampleTwoKeyText : Str :=
  ("\x7b\"דגם\": \"GD9EL5R\", \"רמת גימור\": \"GX\"\x7d").data

/-- The value `json.loads` yields for `sampleTwoKeyText`. -/
def sampleTwoKeyJson : Json :=
  Json.obj [(FIELD_MODEL, Json.str ("GD9EL5R").data),
    (FIELD_TRIM, Json.str ("GX").data)]

/-- A concrete environment whose target fetch returns HTTP 300 with bytes
that decode fine, in direct mode with a successful AI call. -/
def env300 : Env :=
  Env.mk none (fun _ => FetchResult.resp 300 (("Multiple Choices").data) [])
    (fun b => Except.ok (ImageData.mk b))
    (fun _ => AIResult.ok sampleTwoKeyText)
    (fun _ => ("err").data)

/-- C4 counterexample: a non-2xx fetch status does not always produce HTTP
400 — `raise_for_status` only raises for 4xx/5xx, so a response with status
300 sails through, the bytes decode, and the request succeeds with HTTP
200. -/
theorem non_2xx_status_not_always_400 :
    env300.fetch sampleUrl
      = FetchResult.resp 300 (("Multiple Choices").data) []
    ∧ extract_document_fields env300 (some sampleUrl)
        = HttpResponse.mk 200 (Body.json sampleTwoKeyJson)
            (("application/json").data) :=
  And.intro rfl rfl

/-- C4 (amended: 4xx/5xx rather than non-2xx): a network error or an HTTP
error status in the 4xx/5xx range on the target fetch yields HTTP 400 with
the underlying error text; a fetch that returns a non-error status whose
bytes fail to decode as an image yields HTTP 500 with the decode error. -/
theorem fetch_failures_map_to_400_decode_failures_to_500
    (e : Env) (u : Str) (hu : u.isEmpty = false) :
    (∀ m, e.fetch u = FetchResult.exc m →
      extract_document_fields e (some u)
        = HttpResponse.mk 400
            (Body.text (("Error fetching image from URL: ").data ++ m))
            (("text/plain").data))
    ∧ (∀ st r b, e.fetch u = FetchResult.resp st r b →
        400 ≤ st → st < 600 →
      extract_document_fields e (some u)
        = HttpResponse.mk 400
            (Body.text (("Error fetching image from URL: ").data
              ++ http_error_text st r u))
            (("text/plain").data))
    ∧ (∀ st r b m, e.fetch u = FetchResult.resp st r b →
        ¬(400 ≤ st ∧ st < 600) → e.decode b = Except.error m →
      extract_document_fields e (some u)
        = HttpResponse.mk 500
            (Body.text (("Error processing image: ").data ++ m))
            (("text/plain").data)) := by
  refine ⟨?_, ?_, ?_⟩
  · intro m hfetch
    simp [extract_document_fields, fetchImage, hu, hfetch]
  · intro st r b hfetch h4 h6
    have hss : 400 ≤ st ∧ st < 600 := ⟨h4, h6⟩
    simp [extract_document_fields, fetchImage, raise_for_status, hu, hfetch,
      hss]
  · intro st r b m hfetch hns hdec
    simp [extract_document_fields, fetchImage, raise_for_status, hu, hfetch,
      hns, hdec]

/-- A concrete environment whose target fetch raises a network error. -/
def envExc : Env :=
  Env.mk none (fun _ => FetchResult.exc (("connection refused").data))
    (fun b => Except.ok (ImageData.mk b))
    (fun _ => AIResult.ok sampleTwoKeyText)
    (fun _ => ("err").data)

/-- A concrete environment whose target fetch returns HTTP 404. -/
def env404 : Env :=
  Env.mk none (fun _ => FetchResult.resp 404 (("Not Found").data) [])
    (fun b => Except.ok (ImageData.mk b))
    (fun _ => AIResult.ok sampleTwoKeyText)
    (fun _ => ("err").data)

/-- A concrete environment whose target fetch succeeds with bytes that are
not a decodable image. -/
def envBadImage : Env :=
  Env.mk none (fun _ => FetchResult.resp 200 (("OK").data) [])
    (fun _ => Except.error (("cannot identify image file").data))
    (fun _ => AIResult.ok sampleTwoKeyText)
    (fun _ => ("err").data)

/-- C4 witness: the amended theorem applied to three concrete environments,
one per failure class. -/
theorem fetch_failures_map_to_400_decode_failures_to_500_witness :
    extract_document_fields envExc (some sampleUrl)
      = HttpResponse.mk 400
          (Body.text (("Error fetching image from URL: ").data
            ++ ("connection refused").data))
          (("text/plain").data)
    ∧ extract_document_fields env404 (some sampleUrl)
        = HttpResponse.mk 400
            (Body.text (("Error fetching image from URL: ").data
              ++ http_error_text 404 (("Not Found").data) sampleUrl))
            (("text/plain").data)
    ∧ extract_document_fields envBadImage (some sampleUrl)
        = HttpResponse.mk 500
            (Body.text (("Error processing image: ").data
              ++ ("cannot identify image file").data))
            (("text/plain").data) :=
  And.intro
    ((fetch_failures_map_to_400_decode_failures_to_500 envExc sampleUrl
      rfl).1 (("connection refused").data) rfl)
    (And.intro
      ((fetch_failures_map_to_400_decode_failures_to_500 env404 sampleUrl
        rfl).2.1 404 (("Not Found").data) [] rfl (by decide) (by decide))
      ((fetch_failures_map_to_400_decode_failures_to_500 envBadImage
        sampleUrl rfl).2.2 200 (("OK").data) []
        (("cannot identify image file").data) rfl (by decide) rfl))

/-- C1 counterexample: in direct mode, with a successful fetch and an AI
response whose normalized text is valid JSON, the handler returns HTTP 200
relaying the parsed JSON as-is even when it is an object with a single key
that is not one of the two fixed extraction fields — no key validation is
performed. -/
theorem direct_success_body_not_always_two_keys :
    extract_document_fields (directEnv sampleJsonText) (some sampleUrl)
      = HttpResponse.mk 200 (Body.json sampleJson) (("application/json").data)
    ∧ jsonTopKeys sampleJson = some [['a']]
    ∧ [['a']] ≠ [FIELD_MODEL, FIELD_TRIM] :=
  And.intro rfl (And.intro rfl (by decide))

/-- C1 (amended: the handler relays the parsed JSON and the body has the
two fixed keys exactly when the AI answered with exactly those keys): in
direct mode, when the fetch and decode succeed, the AI call returns a text
whose normalized form parses as JSON `j`, the handler answers HTTP 200 with
body exactly `j`; when moreover `j` is an object whose keys are exactly the
two fixed extraction fields, the body is a JSON object with exactly those
two keys. -/
theorem direct_success_returns_parsed_json
    (e : Env) (u : Str) (img : ImageData) (t : Str) (j : Json)
    (hu : u.isEmpty = false)
    (hmode : OCR_APPROACH e ≠ ("reference_based").data)
    (hfi : fetchImage e u = Except.ok img)
    (hgen : e.genContent [GenPart.txt PROMPT_DIRECT, GenPart.img img]
      = AIResult.ok t)
    (hparse : jsonLoads (normalizeResponse t) = some j) :
    extract_document_fields e (some u)
      = HttpResponse.mk 200 (Body.json j) (("application/json").data)
    ∧ (∀ kvs, j = Json.obj kvs →
        kvs.map Prod.fst = [FIELD_MODEL, FIELD_TRIM] →
        jsonTopKeys j = some [FIELD_MODEL, FIELD_TRIM]) := by
  constructor
  · simp [extract_document_fields, hu, hfi, hmode, aiRespond, hgen, hparse]
  · intro kvs hj hk
    rw [hj]
    simp [jsonTopKeys, hk]

/-- C1 witness: the amended theorem applied to a direct-mode environment
whose AI answers the two-field JSON object. -/
theorem direct_success_returns_parsed_json_witness :
    extract_document_fields (directEnv sampleTwoKeyText) (some sampleUrl)
      = HttpResponse.mk 200 (Body.json sampleTwoKeyJson)
          (("application/json").data)
    ∧ jsonTopKeys sampleTwoKeyJson = some [FIELD_MODEL, FIELD_TRIM] :=
  And.intro
    (direct_success_returns_parsed_json (directEnv sampleTwoKeyText)
      sampleUrl (ImageData.mk []) sampleTwoKeyText sampleTwoKeyJson rfl
      (by decide) rfl rfl rfl).1
    ((direct_success_returns_parsed_json (directEnv sampleTwoKeyText)
      sampleUrl (ImageData.mk []) sampleTwoKeyText sampleTwoKeyJson rfl
      (by decide) rfl rfl rfl).2
      [(FIELD_MODEL, Json.str ("GD9EL5R").data),
        (FIELD_TRIM, Json.str ("GX").data)] rfl rfl)

/-- A concrete environment in reference-based mode: every fetch succeeds
with status 200, every byte string decodes, and the AI always answers
`t`. -/
def refEnv (t : Str) : Env :=
  Env.mk (some (("reference_based").data))
    (fun _ => FetchResult.resp 200 (("OK").data) [])
    (fun b => Except.ok (ImageData.mk b)) (fun _ => AIResult.ok t)
    (fun _ => ("Expecting value: line 1 column 1 (char 0)").data)

/-- C3 counterexample: the form of a successful response does not depend on
the extraction-strategy toggle — with identical successful oracles both
configuration values answer HTTP 200 with the same JSON body, and neither
produces a plain-text success body (of four fixed lines or otherwise). -/
theorem success_form_same_in_both_modes :
    extract_document_fields (directEnv sampleTwoKeyText) (some sampleUrl)
      = HttpResponse.mk 200 (Body.json sampleTwoKeyJson)
          (("application/json").data)
    ∧ extract_document_fields (refEnv sampleTwoKeyText) (some sampleUrl)
        = HttpResponse.mk 200 (Body.json sampleTwoKeyJson)
            (("application/json").data)
    ∧ OCR_APPROACH (directEnv sampleTwoKeyText)
        ≠ OCR_APPROACH (refEnv sampleTwoKeyText) :=
  And.intro rfl (And.intro rfl (by decide))

/-- C3 (amended: successful requests yield a JSON body in both
configurations; the toggle selects the prompt and images sent to the AI,
not the response form): whichever variant is selected, when every external
step succeeds and the normalized AI text parses as JSON `j`, the handler
answers HTTP 200 with the JSON body `j`. -/
theorem successful_request_returns_json_in_both_modes
    (e : Env) (u : Str) (img : ImageData) (t : Str) (j : Json)
    (hu : u.isEmpty = false)
    (hfi : fetchImage e u = Except.ok img)
    (hai : (OCR_APPROACH e = ("reference_based").data ∧
        ∃ rimg, fetchReferenceImage e = Except.ok rimg ∧
          e.genContent [GenPart.txt PROMPT_REFERENCE, GenPart.img rimg,
            GenPart.img img] = AIResult.ok t)
      ∨ (OCR_APPROACH e ≠ ("reference_based").data ∧
        e.genContent [GenPart.txt PROMPT_DIRECT, GenPart.img img]
          = AIResult.ok t))
    (hparse : jsonLoads (normalizeResponse t) = some j) :
    extract_document_fields e (some u)
      = HttpResponse.mk 200 (Body.json j) (("application/json").data) := by
  rcases hai with ⟨hmode, rimg, href, hgen⟩ | ⟨hmode, hgen⟩
  · simp [extract_document_fields, hu, hfi, hmode, href, aiRespond, hgen,
      hparse]
  · simp [extract_document_fields, hu, hfi, hmode, aiRespond, hgen, hparse]

/-- C3 witness: the amended theorem applied in reference-based mode. -/
theorem successful_request_returns_json_in_both_modes_witness :
    extract_document_fields (refEnv sampleTwoKeyText) (some sampleUrl)
      = HttpResponse.mk 200 (Body.json sampleTwoKeyJson)
          (("application/json").data) :=
  successful_request_returns_json_in_both_modes (refEnv sampleTwoKeyText)
    sampleUrl (ImageData.mk []) sampleTwoKeyText sampleTwoKeyJson rfl rfl
    (Or.inl ⟨rfl, ImageData.mk [], rfl, rfl⟩) rfl

/-- An AI response text that is not valid JSON even after normalization. -/
def sampleBadText : Str := ("I cannot read this document").data

/-- C6: in both extraction variants, an AI response whose normalized text
fails to parse as JSON is answered with HTTP 500 and a body that embeds the
raw, unstripped response text after the `JSONDecodeError` message. -/
theorem unparsable_response_gives_500_with_raw_text
    (e : Env) (u : Str) (img : ImageData) (t : Str)
    (hu : u.isEmpty = false)
    (hfi : fetchImage e u = Except.ok img)
    (hai : (OCR_APPROACH e = ("reference_based").data ∧
        ∃ rimg, fetchReferenceImage e = Except.ok rimg ∧
          e.genContent [GenPart.txt PROMPT_REFERENCE, GenPart.img rimg,
            GenPart.img img] = AIResult.ok t)
      ∨ (OCR_APPROACH e ≠ ("reference_based").data ∧
        e.genContent [GenPart.txt PROMPT_DIRECT, GenPart.img img]
          = AIResult.ok t))
    (hparse : jsonLoads (normalizeResponse t) = none) :
    extract_document_fields e (some u)
      = HttpResponse.mk 500
          (Body.text (("Error parsing JSON response: ").data
            ++ e.jsonDecodeErrText (normalizeResponse t)
            ++ ("\nResponse text: ").data ++ t))
          (("text/plain; charset=utf-8").data) := by
  rcases hai with ⟨hmode, rimg, href, hgen⟩ | ⟨hmode, hgen⟩
  · simp [extract_document_fields, hu, hfi, hmode, href, aiRespond, hgen,
      hparse]
  · simp [extract_document_fields, hu, hfi, hmode, aiRespond, hgen, hparse]

/-- C6 witness: the theorem applied to a direct-mode environment whose AI
answers prose instead of JSON. -/
theorem unparsable_response_gives_500_with_raw_text_witness :
    extract_document_fields (directEnv sampleBadText) (some sampleUrl)
      = HttpResponse.mk 500
          (Body.text (("Error parsing JSON response: ").data
            ++ (directEnv sampleBadText).jsonDecodeErrText
                (normalizeResponse sampleBadText)
            ++ ("\nResponse text: ").data ++ sampleBadText))
          (("text/plain; charset=utf-8").data) :=
  unparsable_response_gives_500_with_raw_text (directEnv sampleBadText)
    sampleUrl (ImageData.mk []) sampleBadText rfl rfl
    (Or.inr ⟨by decide, rfl⟩) rfl

/-- C7: in both extraction variants, a failure of the AI call other than a
JSON parse failure is answered with HTTP 500 and a plain-text body carrying
the error's type name and message. -/
theorem ai_failure_gives_500_with_type_and_message
    (e : Env) (u : Str) (img : ImageData) (ty m : Str)
    (hu : u.isEmpty = false)
    (hfi : fetchImage e u = Except.ok img)
    (hai : (OCR_APPROACH e = ("reference_based").data ∧
        ∃ rimg, fetchReferenceImage e = Except.ok rimg ∧
          e.genContent [GenPart.txt PROMPT_REFERENCE, GenPart.img rimg,
            GenPart.img img] = AIResult.err ty m)
      ∨ (OCR_APPROACH e ≠ ("reference_based").data ∧
        e.genContent [GenPart.txt PROMPT_DIRECT, GenPart.img img]
          = AIResult.err ty m)) :
    extract_document_fields e (some u)
      = HttpResponse.mk 500
          (Body.text (("Error communicating with the AI model:\nError Type: ").data
            ++ ty ++ ("\nError Message: ").data ++ m))
          (("text/plain; charset=utf-8").data) := by
  rcases hai with ⟨hmode, rimg, href, hgen⟩ | ⟨hmode, hgen⟩
  · simp [extract_document_fields, hu, hfi, hmode, href, aiRespond, hgen]
  · simp [extract_document_fields, hu, hfi, hmode, aiRespond, hgen]

/-- A concrete direct-mode environment whose AI call raises. -/
def envAIFail : Env :=
  Env.mk none (fun _ => FetchResult.resp 200 (("OK").data) [])
    (fun b => Except.ok (ImageData.mk b))
    (fun _ => AIResult.err (("ResourceExhausted").data)
      (("429 Resource has been exhausted").data))
    (fun _ => ("err").data)

/-- C7 witness: the theorem applied to a direct-mode environment whose AI
call raises a quota error. -/
theorem ai_failure_gives_500_with_type_and_message_witness :
    extract_document_fields envAIFail (some sampleUrl)
      = HttpResponse.mk 500
          (Body.text (("Error communicating with the AI model:\nError Type: ").data
            ++ ("ResourceExhausted").data ++ ("\nError Message: ").data
            ++ ("429 Resource has been exhausted").data))
          (("text/plain; charset=utf-8").data) :=
  ai_failure_gives_500_with_type_and_message envAIFail sampleUrl
    (ImageData.mk []) (("ResourceExhausted").data)
    (("429 Resource has been exhausted").data) rfl rfl
    (Or.inr ⟨by decide, rfl⟩)

/-- C8: in reference-based mode, once the target image is fetched and
decoded, the handler fetches the fixed reference image; on success it passes
the reference prompt, the reference image and the target image to the AI
call, and on failure it answers HTTP 500 with the diagnostic text and never
consults the AI oracle (the response is unchanged under any replacement of
that oracle). -/
theorem reference_mode_passes_reference_to_ai
    (e : Env) (u : Str) (img : ImageData)
    (hu : u.isEmpty = false)
    (hmode : OCR_APPROACH e = ("reference_based").data)
    (hfi : fetchImage e u = Except.ok img) :
    (∀ rimg, fetchReferenceImage e = Except.ok rimg →
      extract_document_fields e (some u)
        = aiRespond e [GenPart.txt PROMPT_REFERENCE, GenPart.img rimg,
            GenPart.img img])
    ∧ (∀ m, fetchReferenceImage e = Except.error m →
      extract_document_fields e (some u)
        = HttpResponse.mk 500
            (Body.text (("Error fetching reference image: ").data ++ m))
            (("text/plain").data)
      ∧ ∀ g, extract_document_fields (withGen e g) (some u)
          = extract_document_fields e (some u)) := by
  constructor
  · intro rimg href
    simp [extract_document_fields, hu, hfi, hmode, href]
  · intro m href
    have hbase : extract_document_fields e (some u)
        = HttpResponse.mk 500
            (Body.text (("Error fetching reference image: ").data ++ m))
            (("text/plain").data) := by
      simp [extract_document_fields, hu, hfi, hmode, href]
    refine ⟨hbase, ?_⟩
    intro g
    have hfi2 : fetchImage (withGen e g) u = Except.ok img := by
      rw [fetchImage_withGen]
      exact hfi
    have href2 : fetchReferenceImage (withGen e g) = Except.error m := by
      rw [fetchReferenceImage_withGen]
      exact href
    have hmode2 : OCR_APPROACH (withGen e g) = ("reference_based").data := by
      rw [OCR_APPROACH_withGen]
      exact hmode
    rw [hbase]
    simp [extract_document_fields, hu, hfi2, hmode2, href2]

/-- A reference-mode environment where the reference fetch fails while the
target fetch succeeds. -/
def refEnvBadRef : Env :=
  Env.mk (some (("reference_based").data))
    (fun url => if url = REFERENCE_IMAGE_URL then
        FetchResult.exc (("reference host unreachable").data)
      else FetchResult.resp 200 (("OK").data) [])
    (fun b => Except.ok (ImageData.mk b))
    (fun _ => AIResult.ok sampleTwoKeyText)
    (fun _ => ("err").data)

/-- C8 witness: the theorem applied to a reference-mode environment, in both
the successful-reference and failing-reference cases. -/
theorem reference_mode_passes_reference_to_ai_witness :
    extract_document_fields (refEnv sampleTwoKeyText) (some sampleUrl)
      = aiRespond (refEnv sampleTwoKeyText)
          [GenPart.txt PROMPT_REFERENCE, GenPart.img (ImageData.mk []),
            GenPart.img (ImageData.mk [])]
    ∧ extract_document_fields refEnvBadRef (some sampleUrl)
        = HttpResponse.mk 500
            (Body.text (("Error fetching reference image: ").data
              ++ ("reference host unreachable").data))
            (("text/plain").data) :=
  And.intro
    ((reference_mode_passes_reference_to_ai (refEnv sampleTwoKeyText)
      sampleUrl (ImageData.mk []) rfl rfl rfl).1 (ImageData.mk []) rfl)
    ((reference_mode_passes_reference_to_ai refEnvBadRef sampleUrl
      (ImageData.mk []) rfl rfl rfl).2
      (("reference host unreachable").data) rfl).1

/-- C5 witness: the missing-parameter theorem applied to a concrete
environment. -/
theorem missing_image_url_gives_400_witness :
    extract_document_fields (directEnv sampleTwoKeyText) none
      = HttpResponse.mk 400 (Body.text MISSING_PARAM_MSG)
          (("text/plain").data) :=
  missing_image_url_gives_400 (directEnv sampleTwoKeyText)

/-- C9 witness: the empty-parameter theorem applied to a concrete
environment. -/
theorem empty_image_url_gives_400_witness :
    extract_document_fields (directEnv sampleTwoKeyText) (some [])
      = extract_document_fields (directEnv sampleTwoKeyText) none
    ∧ (extract_document_fields (directEnv sampleTwoKeyText)
        (some [])).status = 400 :=
  empty_image_url_gives_400 (directEnv sampleTwoKeyText)

/-- C10 witness: the default-approach theorem applied to concrete
environments with the variable unset. -/
theorem ocr_approach_default_direct_witness :
    OCR_APPROACH (directEnv sampleTwoKeyText) = ("direct").data
    ∧ extract_document_fields env300 (some sampleUrl)
        = extract_document_fields
            (withApproach env300 (some (("direct").data))) (some sampleUrl) :=
  And.intro
    ((ocr_approach_default_direct (directEnv sampleTwoKeyText)).1 rfl)
    ((ocr_approach_default_direct env300).2 (by decide) (some sampleUrl))
